import Mathlib

set_option maxRecDepth 40000

/-!
Shallow embedding of the compliance engine and palette store of the
Tesco-Project repository (backend/utils/compliance_checker.py,
backend/utils/palette_routes.py, backend/utils/palette_db.py), together
with theorems settling the frozen claims about them.

The embedding works over the parsed document tree (the spec's Document data
model, produced in the source by BeautifulSoup's html.parser, which does not
raise on malformed input); machine strings are Lean `String`s, Python dicts
of JSON data are the `PyValue` type below, and the external Gemini call is an
explicit backend parameter.
-/

namespace Tesco

/-! ### String utilities modelling Python primitives -/

/-- One step of substring comparison: does `needle` occur at the head of
`hay`?  (Models the leading-position case of Python's `in` on `str`.) -/
def leadEq : List Char → List Char → Bool
  | [], _ => true
  | _ :: _, [] => false
  | a :: as, b :: bs => a = b && leadEq as bs

/-- Does `needle` occur anywhere in `hay`?  Models Python `needle in hay`. -/
def occursIn (needle : List Char) : List Char → Bool
  | [] => leadEq needle []
  | c :: t => leadEq needle (c :: t) || occursIn needle t

/-- Python's `needle in hay` on strings. -/
def strHas (hay needle : String) : Bool := occursIn needle.toList hay.toList

/-- Python's `txt[:80]` (slicing by code points). -/
def take80 (s : String) : String := String.mk (s.toList.take 80)

/-- Whitespace recognised by Python's `str.strip` / regex `\s`
(ASCII fragment; the source only ever meets ASCII whitespace). -/
def pyWs (c : Char) : Bool :=
  c = ' ' || c = '\t' || c = '\n' || c = '\r' || c = '\x0b' || c = '\x0c'

/-- Python `str.strip()` (ASCII-whitespace fragment). -/
def pyStrip (s : String) : String :=
  String.mk ((s.toList.dropWhile pyWs).reverse.dropWhile pyWs |>.reverse)

/-- Python `str.lower()` (ASCII fragment, via `Char.toLower`). -/
def pyLower (s : String) : String := String.mk (s.toList.map Char.toLower)

/-! ### Document model

The spec's Document data model (§3): an ordered tree of elements (tag name,
class tokens, optional id) and text nodes; in the source this tree is the
BeautifulSoup parse of the markup string. -/

/-- A node of the parsed markup tree. -/
inductive Node where
  | text (s : String)
  | elem (tag : String) (classes : List String) (id : Option String)
      (children : List Node)
deriving Repr

/-- Attributes of one ancestor element of a text node. -/
structure AncInfo where
  tag : String
  classes : List String
  id : Option String
deriving Repr, DecidableEq

/-- A text node as seen by `soup.find_all(string=True)`: its text plus the
chain of ancestor elements, nearest parent first. -/
structure TNode where
  text : String
  ancestors : List AncInfo
deriving Repr, DecidableEq

mutual
/-- Collect text nodes of one subtree in document order. -/
def collectText (anc : List AncInfo) : Node → List TNode
  | .text s => [⟨s, anc⟩]
  | .elem tag cls id children => collectTexts (⟨tag, cls, id⟩ :: anc) children

/-- Collect text nodes of a forest in document order. -/
def collectTexts (anc : List AncInfo) : List Node → List TNode
  | [] => []
  | n :: ns => collectText anc n ++ collectTexts anc ns
end

/-- All text nodes of a document, in document order — the embedding of
`soup.find_all(string=True)` (compliance_checker.py line 91). -/
def textNodesOf (doc : List Node) : List TNode := collectTexts [] doc

/-- Tag of a text node's direct parent; the BeautifulSoup root object has
name `[document]`. -/
def parentTag (t : TNode) : String :=
  match t.ancestors.head? with
  | some a => a.tag
  | none => "[document]"

/-- Class list of the direct parent (empty at document root). -/
def parentClasses (t : TNode) : List String :=
  match t.ancestors.head? with
  | some a => a.classes
  | none => []

/-- Id of the direct parent (absent at document root). -/
def parentId (t : TNode) : Option String :=
  match t.ancestors.head? with
  | some a => a.id
  | none => none

/-! ### The deterministic local scanner (`_simple_local_check`) -/

/-- `COPY_HARD_FAIL_KEYWORDS` (compliance_checker.py lines 13-17).  The
source uses a Python `set`, whose iteration order is unspecified; the list
below keeps the literal's written order, and every theorem that depends on
which keyword is reported is stated existentially over the set. -/
def COPY_HARD_FAIL_KEYWORDS : List String :=
  ["t&c", "t&cs", "terms and conditions", "win", "prize", "competition",
   "guarantee", "money-back", "money back", "sustainab", "green", "charity",
   "best", "#1", "guaranteed", "free trial", "money back guarantee"]

/-- `ALLOWED_VALUE_TILE_CLASSES` (lines 62-72). -/
def ALLOWED_VALUE_TILE_CLASSES : List String :=
  ["value-tile", "clubcard-side", "clubcard-left", "clubcard-right",
   "offer-side", "value-price", "clubcard", "price-tile", "white-tile"]

/-- Id substrings treated as allowed containers (line 85). -/
def ALLOWED_ID_SUBSTRINGS : List String :=
  ["value-tile", "clubcard", "price", "offer"]

/-- Does one ancestor element qualify as an allowed value-tile container?
(body of the `while` loop of `is_within_allowed_tile`, lines 78-87). -/
def ancAllowed (a : AncInfo) : Bool :=
  a.classes.any (fun c => ALLOWED_VALUE_TILE_CLASSES.contains c) ||
  (match a.id with
   | some pid => pid ≠ "" && ALLOWED_ID_SUBSTRINGS.any (fun s => strHas pid s)
   | none => false)

/-- `is_within_allowed_tile` (lines 75-88): walk all ancestors up to the
document root. -/
def isWithinAllowedTile (t : TNode) : Bool := t.ancestors.any ancAllowed

/-! ### A backtracking regular-expression engine

Python's `re` module is a backtracking engine: alternatives are tried left
to right, `?`/`*`/`{m,n}` are greedy with backtracking, and `re.search`
returns the match at the leftmost possible start position.  The fragment
below covers exactly the constructs used by `price_regex`
(compliance_checker.py lines 52-59): character classes, concatenation,
alternation, greedy option, greedy star over a character class, and the
word-boundary assertion `\b` (ASCII fragment of `\w`). -/

/-- Regular-expression abstract syntax (the fragment `price_regex` uses). -/
inductive RE where
  | eps
  | cls (p : Char → Bool)
  | seq (a b : RE)
  | alt (a b : RE)
  | opt (a : RE)
  | star (p : Char → Bool)
  | wb

/-- ASCII word character, modelling regex `\w` for `\b`. -/
def wordChar (c : Char) : Bool := c.isAlphanum || c = '_'

/-- Is there a word boundary between the previously consumed character and
the rest of the input? -/
def atBoundary (prev : Option Char) (rest : List Char) : Bool :=
  (match prev with | some c => wordChar c | none => false) !=
  (match rest.head? with | some c => wordChar c | none => false)

/-- Greedy star over a character class, with backtracking via the
continuation `k` (which receives remaining input, previous character and
consumed-so-far in reverse). -/
def starMatch (p : Char → Bool) :
    List Char → Option Char → List Char →
    (List Char → Option Char → List Char → Option (List Char)) →
    Option (List Char)
  | [], prev, acc, k => k [] prev acc
  | c :: rest, prev, acc, k =>
    if p c then
      match starMatch p rest (some c) (c :: acc) k with
      | some r => some r
      | none => k (c :: rest) prev acc
    else k (c :: rest) prev acc

/-- Backtracking matcher in continuation-passing style.  Trying the
greedy/left branch first and falling back on continuation failure
reproduces Python's matching order exactly. -/
def reMatch : RE → List Char → Option Char → List Char →
    (List Char → Option Char → List Char → Option (List Char)) →
    Option (List Char)
  | .eps, cs, prev, acc, k => k cs prev acc
  | .cls p, cs, _, acc, k =>
    match cs with
    | [] => none
    | c :: rest => if p c then k rest (some c) (c :: acc) else none
  | .seq a b, cs, prev, acc, k =>
    reMatch a cs prev acc (fun cs2 p2 a2 => reMatch b cs2 p2 a2 k)
  | .alt a b, cs, prev, acc, k =>
    match reMatch a cs prev acc k with
    | some r => some r
    | none => reMatch b cs prev acc k
  | .opt a, cs, prev, acc, k =>
    match reMatch a cs prev acc k with
    | some r => some r
    | none => k cs prev acc
  | .star p, cs, prev, acc, k => starMatch p cs prev acc k
  | .wb, cs, prev, acc, k =>
    if atBoundary prev cs then k cs prev acc else none

/-- `re.search`: try each start position left to right, returning the
matched substring (`m.group(0)`, reversed accumulator). -/
def searchFrom (re : RE) : List Char → Option Char → Option (List Char)
  | [], prev => reMatch re [] prev [] (fun _ _ acc => some acc)
  | c :: rest, prev =>
    match reMatch re (c :: rest) prev [] (fun _ _ acc => some acc) with
    | some acc => some acc
    | none => searchFrom re rest (some c)

/-- `pattern.search(s)` returning `m.group(0)` when a match exists. -/
def reSearch (re : RE) (s : String) : Option String :=
  (searchFrom re s.toList none).map (fun acc => String.mk acc.reverse)

/-! ### The price regex (`price_regex`, lines 52-59)

The Python source concatenates five adjacent string literals; only the
first two end in `|`, so the compiled pattern has exactly three
alternatives:

1. `(?:£|\$|€|₹)\s?\d{1,3}(?:[,\d{3}])*(?:\.\d{1,2})?`
2. `\d{1,3}(?:[,\d{3}])*(?:\.\d{1,2})?\s?(?:GBP|USD|EUR|INR)\b`
3. `\d{1,3}\s*%\b(?:was|now|save|off)\s+\d{1,3}\b(?:discount|% off|off)\b`

(the intended separate `20%`, `was/now/save/off+number` and
`discount/% off` branches are fused into alternative 3 because the `|`
between them is missing).  `re.IGNORECASE` is set, so literal letters
match case-insensitively. -/

/-- Case-insensitive literal character (IGNORECASE). -/
def ciChar (c : Char) : RE := .cls (fun x => x.toLower = c.toLower)

/-- Case-insensitive literal string. -/
def litCI (s : String) : RE :=
  s.toList.foldr (fun c r => RE.seq (ciChar c) r) RE.eps

/-- The class `[,\d{3}]`: comma, any digit, `\x7b`, `3`, `\x7d`. -/
def class1 (c : Char) : Bool := c = ',' || c.isDigit || c = '\x7b' || c = '\x7d'

/-- `\d` (ASCII fragment). -/
def dC : RE := .cls Char.isDigit

/-- `\d{1,3}`, greedy. -/
def d13 : RE := .seq dC (.opt (.seq dC (.opt dC)))

/-- `(?:\.\d{1,2})?`, greedy. -/
def fracPart : RE := .opt (.seq (.cls (fun c => c = '.')) (.seq dC (.opt dC)))

/-- Alternative 1: `(?:£|\$|€|₹)\s?\d{1,3}(?:[,\d{3}])*(?:\.\d{1,2})?`. -/
def priceAlt1 : RE :=
  .seq (.cls (fun c => c = '£' || c = '$' || c = '€' || c = '₹'))
    (.seq (.opt (.cls pyWs)) (.seq d13 (.seq (.star class1) fracPart)))

/-- Alternative 2: `\d{1,3}(?:[,\d{3}])*(?:\.\d{1,2})?\s?(?:GBP|USD|EUR|INR)\b`. -/
def priceAlt2 : RE :=
  .seq d13 (.seq (.star class1) (.seq fracPart (.seq (.opt (.cls pyWs))
    (.seq (.alt (litCI "GBP") (.alt (litCI "USD")
      (.alt (litCI "EUR") (litCI "INR")))) .wb))))

/-- Alternative 3 (the fused branch):
`\d{1,3}\s*%\b(?:was|now|save|off)\s+\d{1,3}\b(?:discount|% off|off)\b`. -/
def priceAlt3 : RE :=
  .seq d13 (.seq (.star pyWs) (.seq (.cls (fun c => c = '%')) (.seq .wb
    (.seq (.alt (litCI "was") (.alt (litCI "now")
        (.alt (litCI "save") (litCI "off"))))
      (.seq (.seq (.cls pyWs) (.star pyWs)) (.seq d13 (.seq .wb
        (.seq (.alt (litCI "discount") (.alt (litCI "% off") (litCI "off")))
          .wb))))))))

/-- The compiled `price_regex`. -/
def priceRegex : RE := .alt priceAlt1 (.alt priceAlt2 priceAlt3)

/-- `price_regex.search(txt)`, returning `m.group(0)` on a match. -/
def priceSearch (txt : String) : Option String := reSearch priceRegex txt

/-! ### Python / JSON values

Values produced by `json.loads` and the dict literals of the source.
Non-integral numbers are carried as their literal text (no claim computes
with them). -/

/-- A Python value of JSON shape. -/
inductive PyValue where
  | null
  | bool (b : Bool)
  | int (n : Int)
  | float (lit : String)
  | str (s : String)
  | list (xs : List PyValue)
  | dict (kvs : List (String × PyValue))
deriving Repr

/-- Insertion into a Python dict: a repeated key overwrites in place
(JSON objects with duplicate keys: last value wins, first position kept). -/
def dictInsert (kvs : List (String × PyValue)) (k : String) (v : PyValue) :
    List (String × PyValue) :=
  if kvs.any (fun p => p.1 == k) then
    kvs.map (fun p => if p.1 == k then (k, v) else p)
  else kvs ++ [(k, v)]

/-- Python `d[k]`-style lookup on a dict-shaped value. -/
def pyGet (v : PyValue) (k : String) : Option PyValue :=
  match v with
  | .dict kvs => (kvs.find? (fun p => p.1 == k)).map (·.2)
  | _ => none

/-! ### `json.loads` (the fragment the source exercises)

A recursive-descent parser following CPython's `json` module: optional
whitespace around tokens, objects/arrays/strings/numbers/`true`/`false`/
`null` (plus the `NaN`/`Infinity` constants CPython accepts by default),
strict rejection of control characters inside strings, `\uXXXX` escapes
(surrogate pairing not modelled), and rejection of trailing data. -/

/-- JSON whitespace (as in CPython's `json` module). -/
def jsonWs (c : Char) : Bool := c = ' ' || c = '\t' || c = '\n' || c = '\r'

/-- Skip JSON whitespace. -/
def skipWs (cs : List Char) : List Char := cs.dropWhile jsonWs

/-- Value of one hex digit. -/
def hexVal (c : Char) : Option Nat :=
  if '0' ≤ c ∧ c ≤ '9' then some (c.toNat - 48)
  else if 'a' ≤ c ∧ c ≤ 'f' then some (c.toNat - 87)
  else if 'A' ≤ c ∧ c ≤ 'F' then some (c.toNat - 55)
  else none

/-- Body of a JSON string after the opening quote; returns the decoded
string and the input after the closing quote. -/
def parseJStringBody : Nat → List Char → List Char → Option (String × List Char)
  | 0, _, _ => none
  | _ + 1, [], _ => none
  | fuel + 1, c :: rest, acc =>
    if c = '"' then some (String.mk acc.reverse, rest)
    else if c = '\\' then
      match rest with
      | '"' :: r => parseJStringBody fuel r ('"' :: acc)
      | '\\' :: r => parseJStringBody fuel r ('\\' :: acc)
      | '/' :: r => parseJStringBody fuel r ('/' :: acc)
      | 'b' :: r => parseJStringBody fuel r ('\x08' :: acc)
      | 'f' :: r => parseJStringBody fuel r ('\x0c' :: acc)
      | 'n' :: r => parseJStringBody fuel r ('\n' :: acc)
      | 'r' :: r => parseJStringBody fuel r ('\r' :: acc)
      | 't' :: r => parseJStringBody fuel r ('\t' :: acc)
      | 'u' :: h1 :: h2 :: h3 :: h4 :: r =>
        match hexVal h1, hexVal h2, hexVal h3, hexVal h4 with
        | some a, some b, some c', some d =>
          parseJStringBody fuel r
            (Char.ofNat (((a * 16 + b) * 16 + c') * 16 + d) :: acc)
        | _, _, _, _ => none
      | _ => none
    else if c.toNat < 32 then none
    else parseJStringBody fuel rest (c :: acc)

/-- A JSON number per CPython's `NUMBER_RE`: integer part with no leading
zeros, optional fraction, optional exponent; integral literals become
Python ints, anything else a float. -/
def parseJNumber (cs : List Char) : Option (PyValue × List Char) :=
  let (neg, cs1) := match cs with
    | '-' :: r => (true, r)
    | _ => (false, cs)
  match cs1 with
  | [] => none
  | c :: rest =>
    if !c.isDigit then none
    else
      let (intDigits, afterInt) :=
        if c = '0' then ([c], rest)
        else (c :: rest.takeWhile Char.isDigit, rest.dropWhile Char.isDigit)
      let (fracDigits, afterFrac) :=
        match afterInt with
        | '.' :: r =>
          let ds := r.takeWhile Char.isDigit
          if ds.isEmpty then (([] : List Char), afterInt)
          else ('.' :: ds, r.dropWhile Char.isDigit)
        | _ => ([], afterInt)
      let (expDigits, afterExp) :=
        match afterFrac with
        | e :: r =>
          if e = 'e' || e = 'E' then
            let (sgn, r2) := match r with
              | s :: r3 => if s = '+' || s = '-' then ([s], r3) else (([] : List Char), r)
              | [] => ([], r)
            let ds := r2.takeWhile Char.isDigit
            if ds.isEmpty then (([] : List Char), afterFrac)
            else (e :: (sgn ++ ds), r2.dropWhile Char.isDigit)
          else ([], afterFrac)
        | [] => ([], afterFrac)
      if fracDigits.isEmpty && expDigits.isEmpty then
        let n : Nat := intDigits.foldl (fun a d => a * 10 + (d.toNat - 48)) 0
        some (.int (if neg then -(n : Int) else (n : Int)), afterInt)
      else
        some (.float (String.mk ((if neg then ['-'] else []) ++
          intDigits ++ fracDigits ++ expDigits)), afterExp)

mutual
/-- Parse one JSON value (input already at the value's first character). -/
def parseJValue : Nat → List Char → Option (PyValue × List Char)
  | 0, _ => none
  | fuel + 1, cs =>
    match cs with
    | [] => none
    | c :: rest =>
      if c = '"' then
        (parseJStringBody (rest.length + 1) rest []).map
          (fun p => (.str p.1, p.2))
      else if c = '\x7b' then
        match skipWs rest with
        | '\x7d' :: r2 => some (.dict [], r2)
        | r1 => parseJMembers fuel r1 []
      else if c = '[' then
        match skipWs rest with
        | ']' :: r2 => some (.list [], r2)
        | r1 => parseJElems fuel r1 []
      else if leadEq "true".toList cs then some (.bool true, cs.drop 4)
      else if leadEq "false".toList cs then some (.bool false, cs.drop 5)
      else if leadEq "null".toList cs then some (.null, cs.drop 4)
      else if leadEq "NaN".toList cs then some (.float "NaN", cs.drop 3)
      else if leadEq "Infinity".toList cs then some (.float "Infinity", cs.drop 8)
      else if leadEq "-Infinity".toList cs then some (.float "-Infinity", cs.drop 9)
      else parseJNumber cs

/-- Parse the members of an object after `\x7b` (input at a property name). -/
def parseJMembers : Nat → List Char → List (String × PyValue) →
    Option (PyValue × List Char)
  | 0, _, _ => none
  | fuel + 1, cs, acc =>
    match cs with
    | '"' :: rest =>
      match parseJStringBody (rest.length + 1) rest [] with
      | none => none
      | some (k, r1) =>
        match skipWs r1 with
        | ':' :: r2 =>
          match parseJValue fuel (skipWs r2) with
          | none => none
          | some (v, r3) =>
            match skipWs r3 with
            | ',' :: r4 => parseJMembers fuel (skipWs r4) (dictInsert acc k v)
            | '\x7d' :: r4 => some (.dict (dictInsert acc k v), r4)
            | _ => none
        | _ => none
    | _ => none

/-- Parse the elements of an array after `[` (input at a value). -/
def parseJElems : Nat → List Char → List PyValue → Option (PyValue × List Char)
  | 0, _, _ => none
  | fuel + 1, cs, acc =>
    match parseJValue fuel cs with
    | none => none
    | some (v, r1) =>
      match skipWs r1 with
      | ',' :: r2 => parseJElems fuel (skipWs r2) (acc ++ [v])
      | ']' :: r2 => some (.list (acc ++ [v]), r2)
      | _ => none
end

/-- `json.loads`: parse a whole string, allowing surrounding whitespace and
rejecting trailing data; `none` models a raised `JSONDecodeError`. -/
def jsonLoads (s : String) : Option PyValue :=
  let cs := skipWs s.toList
  match parseJValue (cs.length + 1) cs with
  | some (v, rest) => if (skipWs rest).isEmpty then some v else none
  | none => none

/-! ### Verdicts of the local scanner -/

/-- One entry of a verdict's `details` array. -/
structure Detail where
  rule : String
  result : String
  explain : String
deriving Repr, DecidableEq

/-- A `details` entry as a Python dict. -/
def Detail.toPy (d : Detail) : PyValue :=
  .dict [("rule", .str d.rule), ("result", .str d.result),
         ("explain", .str d.explain)]

/-- A verdict dict built by `_simple_local_check`: always a boolean
`passed` and a string `reason`; the `details` key is present only on the
paths that set it (price fail at lines 127-134, fast-check pass at
line 142 — the keyword fail at line 105 omits it). -/
structure LocalVerdict where
  passed : Bool
  reason : String
  details : Option (List Detail)
deriving Repr, DecidableEq

/-- The verdict as the Python dict the source literally builds. -/
def LocalVerdict.toPy (v : LocalVerdict) : PyValue :=
  .dict ([("passed", .bool v.passed), ("reason", .str v.reason)] ++
    (match v.details with
     | none => []
     | some ds => [("details", .list (ds.map Detail.toPy))]))

/-! ### The scanner proper (`_simple_local_check`, lines 26-143) -/

/-- Does a text node survive the script/style skip (lines 97 and 111:
`t.parent.name in ("script", "style")` → skipped)? -/
def keepNS (t : TNode) : Bool :=
  !(parentTag t == "script" || parentTag t == "style")

/-- Is a text node kept for the out-of-tile keyword concatenation?
(lines 93-100: non-blank, parent not script/style, not inside an allowed
tile). -/
def keptOutside (t : TNode) : Bool :=
  pyStrip t.text != "" && keepNS t && !(isWithinAllowedTile t)

/-- `outside_text` (line 102): stripped kept texts joined by a space,
lowercased. -/
def outsideTextOf (ts : List TNode) : String :=
  pyLower (String.intercalate " "
    ((ts.filter keptOutside).map (fun t => pyStrip t.text)))

/-- First banned keyword found in the out-of-tile text (lines 103-104;
the source iterates a Python set, so which of several matching keywords is
found first is unspecified — theorems about it are stated existentially). -/
def kwHit (ts : List TNode) : Option String :=
  COPY_HARD_FAIL_KEYWORDS.find? (fun kw => strHas (outsideTextOf ts) kw)

/-- The keyword-fail verdict (line 105). -/
def kwFailVerdict (kw : String) : LocalVerdict :=
  ⟨false, "Disallowed copy keyword detected outside value-tile: '" ++ kw ++ "'",
   none⟩

/-- The selector-like hint for a price fail (lines 119-126): parent tag,
`.`-joined classes when non-empty, `#id` when non-empty. -/
def selectorHint (t : TNode) : String :=
  let base := parentTag t
  let withCls :=
    match parentClasses t with
    | [] => base
    | cls => base ++ "." ++ String.intercalate "." cls
  match parentId t with
  | some idv => if idv = "" then withCls else withCls ++ "#" ++ idv
  | none => withCls

/-- The out-of-tile price-fail verdict (lines 127-134). -/
def priceFailVerdict (t : TNode) (txt m : String) : LocalVerdict :=
  ⟨false, "Price/discount copy detected outside allowed value-tile",
   some [⟨"Price text", "fail",
     "Found price-like token '" ++ m ++ "' in element <" ++ selectorHint t ++
       "> with text '" ++ take80 txt ++ "'"⟩]⟩

/-- The in-tile passing detail entry (lines 137-138). -/
def passDetail (txt : String) : Detail :=
  ⟨"Price text", "pass", "Found price inside allowed tile: '" ++ take80 txt ++ "'"⟩

/-- Is a text node skipped by the price loop (lines 109-112)? -/
def skippedNode (t : TNode) : Bool :=
  pyStrip t.text == "" || parentTag t == "script" || parentTag t == "style"

/-- The price-detection loop (lines 108-138): first out-of-tile match
fails immediately; in-tile matches accumulate passing details. -/
def scanPrices : List TNode → List Detail → Except LocalVerdict (List Detail)
  | [], acc => .ok acc
  | t :: rest, acc =>
    if skippedNode t then scanPrices rest acc
    else
      match priceSearch (pyStrip t.text) with
      | some m =>
        if isWithinAllowedTile t then
          scanPrices rest (acc ++ [passDetail (pyStrip t.text)])
        else .error (priceFailVerdict t (pyStrip t.text) m)
      | none => scanPrices rest acc

/-- `_simple_local_check` over the extracted text nodes (lines 90-143):
keyword step, then price step, then PASS-iff-details-else-None
(lines 140-143). -/
def scanTextNodes (ts : List TNode) : Option LocalVerdict :=
  match kwHit ts with
  | some kw => some (kwFailVerdict kw)
  | none =>
    match scanPrices ts [] with
    | .error v => some v
    | .ok ds => if ds.isEmpty then none else some ⟨true, "OK (fast-checks)", some ds⟩

/-- `_simple_local_check` on a parsed document.  (The `try` around
BeautifulSoup at lines 35-47 is dead on the success path modelled here:
`html.parser` recovers from malformed markup instead of raising.) -/
def simple_local_check (doc : List Node) : Option LocalVerdict :=
  scanTextNodes (textNodesOf doc)

/-! ### Adjudication response parsing (`check_html`, lines 250-281) -/

/-- The fenced-block search `re.search(r"` ```json\s*(\x7b.*\x7d)\s*``` `", text, re.S)`,
returning group 1.  At a start position holding the literal backtick fence:
only the maximal whitespace skip can reach `\x7b` (shorter skips land on
whitespace), and the greedy dot-all `.*` picks the largest `k` whose close
brace is followed by whitespace and another fence. -/
def fencedTryAt (cs : List Char) : Option String :=
  let body := cs.dropWhile pyWs
  match body with
  | '\x7b' :: _ =>
    let ks := (List.range body.length).filter (fun k =>
      decide (0 < k) &&
      (match body.drop k with
       | '\x7d' :: rest => leadEq "```".toList (rest.dropWhile pyWs)
       | _ => false))
    match ks.max? with
    | some k => some (String.mk (body.take (k + 1)))
    | none => none
  | _ => none

/-- Leftmost-start search for the fenced pattern. -/
def fencedSearch : List Char → Option String
  | [] => none
  | c :: rest =>
    if leadEq "```json".toList (c :: rest) then
      match fencedTryAt ((c :: rest).drop 7) with
      | some g => some g
      | none => fencedSearch rest
    else fencedSearch rest

/-- Group 1 of the fenced-block regex, when the pattern matches. -/
def fencedGroup (text : String) : Option String := fencedSearch text.toList

/-- The brace-balance loop (lines 264-279): track `\x7b` depth; when depth
returns to zero, try `json.loads` on the substring from the last
zero-depth `\x7b`; first success wins. -/
def braceScanGo (all : List Char) :
    List Char → Nat → Nat → Option Nat → Option PyValue
  | [], _, _, _ => none
  | c :: rest, i, depth, start =>
    if c = '\x7b' then
      braceScanGo all rest (i + 1) (depth + 1)
        (if depth = 0 then some i else start)
    else if c = '\x7d' then
      if depth = 0 then braceScanGo all rest (i + 1) depth start
      else if depth = 1 then
        match start with
        | some s =>
          match jsonLoads (String.mk ((all.drop s).take (i + 1 - s))) with
          | some v => some v
          | none => braceScanGo all rest (i + 1) 0 start
        | none => braceScanGo all rest (i + 1) 0 start
      else braceScanGo all rest (i + 1) (depth - 1) start
    else braceScanGo all rest (i + 1) depth start

/-- First brace-balanced substring that parses as JSON. -/
def braceScan (text : String) : Option PyValue :=
  braceScanGo text.toList text.toList 0 0 none

/-- The fallback verdict for an unparsable response (line 281). -/
def unparsableVerdict (text : String) : PyValue :=
  .dict [("passed", .bool false),
         ("reason", .str "Gemini returned unparsable response"),
         ("raw", .str text)]

/-- Robust JSON extraction from the model response (lines 251-281):
whole-string parse, then fenced block, then brace-balanced substrings,
then the unparsable-response FAIL dict. -/
def parseGeminiText (text : String) : PyValue :=
  match jsonLoads text with
  | some v => v
  | none =>
    match (fencedGroup text).bind jsonLoads with
    | some v => v
    | none =>
      match braceScan text with
      | some v => v
      | none => unparsableVerdict text

/-! ### Prompt composition (lines 170-233) -/

/-- A detected product object; `o.get('label','')` defaults an absent
label to the empty string. -/
structure DetObj where
  label : String
deriving Repr, DecidableEq

/-- `detected_objects_text` (line 171): bulleted labels, or the
placeholder when `objects` is empty (the joined text of a non-empty list
is non-empty, so Python's `or` reduces to this emptiness test). -/
def detectedObjectsText (objects : List DetObj) : String :=
  match objects with
  | [] => "- (none detected)"
  | _ => String.intercalate "\n" (objects.map (fun o => "- " ++ pyStrip o.label))

/-- Hex digit for `\uXXXX` escapes in `json.dumps`. -/
def hexDigit (n : Nat) : Char :=
  if n < 10 then Char.ofNat (48 + n) else Char.ofNat (87 + n)

/-- `json.dumps` escaping of one string character (ASCII fragment;
`ensure_ascii` escaping of non-ASCII is not exercised by the claims). -/
def escJChar (c : Char) : String :=
  if c = '"' then "\\\""
  else if c = '\\' then "\\\\"
  else if c = '\n' then "\\n"
  else if c = '\t' then "\\t"
  else if c = '\r' then "\\r"
  else if c = '\x08' then "\\b"
  else if c = '\x0c' then "\\f"
  else if c.toNat < 32 then
    "\\u00" ++ String.mk [hexDigit (c.toNat / 16), hexDigit (c.toNat % 16)]
  else String.singleton c

mutual
/-- `json.dumps` with its default separators. -/
def pyDumps : PyValue → String
  | .null => "null"
  | .bool true => "true"
  | .bool false => "false"
  | .int n => toString n
  | .float lit => lit
  | .str s => "\"" ++ String.join (s.toList.map escJChar) ++ "\""
  | .list xs => "[" ++ String.intercalate ", " (pyDumpsL xs) ++ "]"
  | .dict kvs => "\x7b" ++ String.intercalate ", " (pyDumpsKV kvs) ++ "\x7d"

/-- Serialized array elements. -/
def pyDumpsL : List PyValue → List String
  | [] => []
  | v :: vs => pyDumps v :: pyDumpsL vs

/-- Serialized object members. -/
def pyDumpsKV : List (String × PyValue) → List String
  | [] => []
  | (k, v) :: kvs =>
    ("\"" ++ String.join (k.toList.map escJChar) ++ "\": " ++ pyDumps v)
      :: pyDumpsKV kvs
end

/-- `assets` metadata: `assets.get("user_inputs", \x7b\x7d)` and
`assets.get("format", \x7b\x7d)` — absent keys are the empty dict. -/
structure Assets where
  user_inputs : PyValue := .dict []
  format : PyValue := .dict []

/-- The deterministic Gemini prompt (the f-string of lines 175-233),
assembled from the four interpolated pieces. -/
def composePrompt (htmlContent detectedText userText formatText : String) :
    String :=
  "\n            You are a retail media creative compliance engine. You will receive:" ++
  "\n            1) Final poster HTML (analyze DOM/inline styles/text; do NOT render)" ++
  "\n            2) Detected objects from product image" ++
  "\n            3) Metadata (user_inputs, format)" ++
  "\n\n            HTML CONTENT:\n            " ++ htmlContent ++
  "\n\n            Detected objects:\n            " ++ detectedText ++
  "\n\n            User inputs:\n            " ++ userText ++
  "\n\n            Format metadata:\n            " ++ formatText ++
  "\n\n            --------------------------------" ++
  "\n            RULES" ++
  "\n            --------------------------------" ++
  "\n            1) ALCOHOL / DRINKAWARE" ++
  "\n            - Alcohol detected or related beverages present in detected objects → Drinkaware lock-up must be present" ++
  "\n            - Missing/invalid → FAIL" ++
  "\n\n            2) PRICE TEXT" ++
  "\n            - Currency only in value/clubcard tile;Both ORIGINAL AND OFFER price CAN be PRESENT in value/culbcard tile." ++
  "\n            - No Offers related text (except OFFER PRICE) should be present inside value/clubcard tile. ONLY Currency and Price related text allowed(eg: £4.99, $30)." ++
  "\n            - Percentages never allowed in any part of poster" ++
  "\n            - Currency outside tile → FAIL" ++
  "\n\n            3) VALUE TILE (DESIGN)" ++
  "\n            - Allowed types: New, White, Clubcard" ++
  "\n            - No overlap; Clubcard must be flat" ++
  "\n            - Wrong type/size/position → FAIL" ++
  "\n\n\n            4) ACCESSIBILITY" ++
  "\n            - Min font sizes: Brand/Checkout double/Social 20px, Checkout single 10px, SAYS 12px" ++
  "\n            - WCAG AA contrast (4.5:1)" ++
  "\n            - Violations → FAIL" ++
  "\n\n            5) LOGO" ++
  "\n            - Must be present where required" ++
  "\n            - Missing/invalid → FAIL" ++
  "\n\n            IMPORTANT" ++
  "\n            - Treat \"% off\", \"discount\", \"save\", \"was/now\", \"Offer\" as PRICE TEXT if anything anything resembling a price (except \"Clubcard Prices\") is present in headline or subheadline -> Block" ++
  "\n            - Ignore HTML tags; check visible text only" ++
  "\n            - Ignore fine print at bottom" ++
  "\n\n            TASK" ++
  "\n            1) Analyze HTML + detected objects" ++
  "\n            2) For each rule, output PASS/FAIL + explanation" ++
  "\n            3) Hard-fail → JSON: \x7b \"passed\": false, \"reason\": \"...\", \"details\": [ ... ] \x7d" ++
  "\n            4) Clean → JSON: \x7b \"passed\": true, \"reason\": \"OK\", \"details\": [ ... ] \x7d" ++
  "\n\n            Output must be valid JSON only; \"details\" is array of \x7b \"rule\": \"<rule-name>\", \"result\": \"pass|fail|warn\", \"explain\": \"...\" \x7d." ++
  "\n            "

/-! ### The orchestrator (`check_html`, lines 146-288) -/

/-- Outcome of the external Gemini call (`model.generate_content` plus
`response.text`): either the raw response text or a raised exception with
its `str(e)` message. -/
inductive BackendResult where
  | raise (msg : String)
  | respond (text : String)

/-- A Python exception escaping `check_html`. -/
inductive PyErr where
  /-- `TypeError: 'NoneType' object is not subscriptable`, raised by
  `local['passed']` at line 167 when the local scan returned `None`. -/
  | noneNotSubscriptable
deriving Repr, DecidableEq

/-- Markup input: the raw string (interpolated into the prompt) together
with its parsed document tree (what BeautifulSoup produces from it). -/
structure Markup where
  source : String
  dom : List Node

/-- The safe-default failure dict of line 288. -/
def engineFailedVerdict (msg : String) : PyValue :=
  .dict [("passed", .bool false),
         ("reason", .str ("Compliance engine failed: " ++ msg))]

/-- `check_html` (lines 146-288).  The local scan result is subscripted
at line 167 without a `None` guard, so a null scan raises; a local FAIL is
returned as-is; otherwise the prompt is composed and the backend invoked,
its response text stripped and robustly parsed; if the backend raises, the
local scan is re-run and returned when non-null, else the safe-default
FAIL. -/
def check_html (m : Markup) (objects : List DetObj) (assets : Assets)
    (backend : String → BackendResult) : Except PyErr PyValue :=
  match simple_local_check m.dom with
  | none => .error .noneNotSubscriptable
  | some lv =>
    if lv.passed = false then .ok lv.toPy
    else
      match backend (composePrompt m.source (detectedObjectsText objects)
          (pyDumps assets.user_inputs) (pyDumps assets.format)) with
      | .respond t => .ok (parseGeminiText (pyStrip t))
      | .raise msg =>
        match simple_local_check m.dom with
        | some l => .ok l.toPy
        | none => .ok (engineFailedVerdict msg)

/-! ### The palette store (palette_db.py, palette_routes.py)

`save_palette` runs `INSERT ... ON CONFLICT(primary_color, secondary_color,
accent_color, bg_color) DO UPDATE SET usage_count = usage_count + 1` with
`usage_count = 1` on fresh insert; `color_palettes` is UNIQUE on the
4-color tuple.  The table is modelled as the list of its rows in insertion
order, keyed by the 4-tuple of color strings. -/

/-- The 4-color tuple (primary, secondary, accent, background). -/
abbrev ColorKey := String × String × String × String

/-- One row of `color_palettes`. -/
structure PaletteRow where
  key : ColorKey
  usage_count : Nat
deriving Repr, DecidableEq

/-- The `color_palettes` table. -/
abbrev PaletteDB := List PaletteRow

/-- The upsert of `save_palette` (palette_routes.py lines 10-22). -/
def save_palette (db : PaletteDB) (k : ColorKey) : PaletteDB :=
  if db.any (fun r => decide (r.key = k)) then
    db.map (fun r =>
      if r.key = k then { r with usage_count := r.usage_count + 1 } else r)
  else db ++ [⟨k, 1⟩]

/-- The table contents after a sequence of saves against the freshly
initialised (empty) table. -/
def savePaletteSeq (ks : List ColorKey) : PaletteDB := ks.foldl save_palette []

/-! ### Concrete fixture documents -/

/-- A document whose only price sits inside a `value-tile` container. -/
def tileDoc : List Node := [.elem "div" ["value-tile"] none [.text "£5"]]

/-- The markup input carrying `tileDoc`. -/
def tileMarkup : Markup := ⟨"<div class=\"value-tile\">£5</div>", tileDoc⟩

/-- The PASS verdict the local scanner produces on `tileDoc`. -/
def tilePassVerdict : LocalVerdict :=
  ⟨true, "OK (fast-checks)", some [passDetail "£5"]⟩

/-- A document with a currency price outside any allowed tile. -/
def plainPriceDoc : List Node := [.elem "p" [] none [.text "Only £4.99 today"]]

/-- The markup input carrying `plainPriceDoc`. -/
def plainPriceMarkup : Markup := ⟨"<p>Only £4.99 today</p>", plainPriceDoc⟩

/-- A document containing a banned copy phrase outside any tile. -/
def keywordDoc : List Node := [.elem "p" [] none [.text "Money Back Guarantee!"]]

/-- The markup input carrying `keywordDoc`. -/
def keywordMarkup : Markup := ⟨"<p>Money Back Guarantee!</p>", keywordDoc⟩

/-- A benign document: no keyword, no price-like text. -/
def benignDoc : List Node := [.elem "p" [] none [.text "hello"]]

/-- The markup input carrying `benignDoc`. -/
def benignMarkup : Markup := ⟨"<p>hello</p>", benignDoc⟩

/-- A document whose only text is the bare percentage `20%`. -/
def percentDoc : List Node := [.elem "p" [] none [.text "20%"]]

/-- The markup input carrying `percentDoc`. -/
def percentMarkup : Markup := ⟨"<p>20%</p>", percentDoc⟩

/-- A document whose only text is the save-phrasing `save 50`. -/
def savePhraseDoc : List Node := [.elem "p" [] none [.text "save 50"]]

/-- The empty markup input (empty string parses to an empty tree). -/
def emptyMarkup : Markup := ⟨"", []⟩

/-! ### Shared lemmas about the scanner -/

/-- Is a node an in-tile price match recorded by the price loop? -/
def inTileMatch (t : TNode) : Bool :=
  !skippedNode t && (priceSearch (pyStrip t.text)).isSome && isWithinAllowedTile t

theorem scanPrices_error_passed :
    ∀ (ts : List TNode) (acc : List Detail) (v : LocalVerdict),
      scanPrices ts acc = .error v → v.passed = false := by
  intro ts
  induction ts with
  | nil => intro acc v h; simp [scanPrices] at h
  | cons t rest ih =>
    intro acc v h
    rw [scanPrices] at h
    split at h
    · exact ih acc v h
    · split at h
      · split at h
        · exact ih _ v h
        · cases h; rfl
      · exact ih acc v h

theorem scanPrices_ok_eq :
    ∀ (ts : List TNode) (acc ds : List Detail),
      scanPrices ts acc = .ok ds →
      ds = acc ++ (ts.filter inTileMatch).map (fun t => passDetail (pyStrip t.text)) := by
  intro ts
  induction ts with
  | nil =>
    intro acc ds h
    rw [scanPrices] at h
    cases h
    simp
  | cons t rest ih =>
    intro acc ds h
    rw [scanPrices] at h
    split at h
    next hs =>
      have hf : inTileMatch t = false := by simp [inTileMatch, hs]
      simpa [List.filter_cons, hf] using ih acc ds h
    next hs =>
      split at h
      next m hm =>
        split at h
        next ht =>
          have hit : inTileMatch t = true := by
            simp [inTileMatch, hs, hm, ht]
          simpa [List.filter_cons, hit, List.append_assoc] using ih _ ds h
        next ht => cases h
      next hm =>
        have hf : inTileMatch t = false := by simp [inTileMatch, hm]
        simpa [List.filter_cons, hf] using ih acc ds h

/-! ### The claims -/

/-- C1: the claim states that `checkCompliance` returns a Verdict on every
input and never raises, including when the local scanner yields no
definitive verdict (null).  The code violates this: `check_html`
subscripts the scan result at line 167 without a `None` guard, so on any
input whose local scan is null — e.g. the empty markup — it raises
`TypeError: 'NoneType' object is not subscriptable` before reaching the
backend, whatever the backend would do. -/
theorem C1_null_scan_raises :
    ∀ (objects : List DetObj) (assets : Assets)
      (backend : String → BackendResult),
      simple_local_check emptyMarkup.dom = none ∧
      check_html emptyMarkup objects assets backend =
        .error .noneNotSubscriptable := by
  intro objects assets backend
  exact ⟨rfl, rfl⟩

/-- C2 counterexample: the claim says `checkCompliance` never returns a
verdict with `passed=true` when the adjudication call could not run.  But
with an in-tile price (local PASS) and a raising backend, the except
handler re-runs the local scanner and returns its PASS verdict: the result
has `passed=true` although the backend raised. -/
theorem C2_pass_despite_backend_error :
    check_html tileMarkup [] {} (fun _ => .raise "boom") =
      .ok tilePassVerdict.toPy ∧
    pyGet tilePassVerdict.toPy "passed" = some (.bool true) := ⟨rfl, rfl⟩

/-- C2 amended: when the backend call raises, `check_html` re-runs the
local scanner and returns its verdict.  Reaching the backend requires the
first scan to be a PASS, and the scanner is deterministic, so the re-run
verdict is that same non-null PASS verdict: the `Compliance engine failed`
fallback is unreachable and the returned verdict has `passed=true` even
though adjudication could not run. -/
theorem C2_backend_error_returns_rerun (m : Markup) (objects : List DetObj)
    (assets : Assets) (backend : String → BackendResult) (msg : String)
    (lv : LocalVerdict)
    (hscan : simple_local_check m.dom = some lv)
    (hpass : lv.passed = true)
    (hraise : backend (composePrompt m.source (detectedObjectsText objects)
      (pyDumps assets.user_inputs) (pyDumps assets.format)) = .raise msg) :
    check_html m objects assets backend = .ok lv.toPy ∧
    pyGet lv.toPy "passed" = some (.bool true) := by
  constructor
  · rw [check_html, hscan]
    simp only [hpass, Bool.true_eq_false, if_false, hraise, hscan]
  · cases lv with
    | mk passed reason details =>
      cases hpass
      cases details <;> rfl

/-- Witness for C2's amended theorem at a concrete input. -/
theorem C2_backend_error_returns_rerun_witness :
    check_html tileMarkup [] {} (fun _ => .raise "offline") =
      .ok tilePassVerdict.toPy ∧
    pyGet tilePassVerdict.toPy "passed" = some (.bool true) :=
  C2_backend_error_returns_rerun tileMarkup [] {} (fun _ => .raise "offline")
    "offline" tilePassVerdict rfl rfl rfl

/-- C3: the claim (matching the source's own inline comments `# 20%` and
`# "save 20" heuristics`) states that bare percentage numerals and
was/now/save/off-plus-number phrasing outside a tile make the scan fail.
The compiled `price_regex` is missing the `|` between those branches, so
neither `20%` nor `save 50` matches it; the scan returns null on such
markup and `check_html` then raises at line 167 instead of failing —
while the intact currency branch still fails as claimed. -/
theorem C3_percent_and_save_not_flagged :
    priceSearch "20%" = none ∧
    priceSearch "save 50" = none ∧
    simple_local_check percentDoc = none ∧
    simple_local_check savePhraseDoc = none ∧
    (∀ (objects : List DetObj) (assets : Assets)
        (backend : String → BackendResult),
      check_html percentMarkup objects assets backend =
        .error .noneNotSubscriptable) ∧
    priceSearch "£4.99" = some "£4.99" :=
  ⟨rfl, rfl, rfl, rfl, fun _ _ _ => rfl, rfl⟩

/-- C4: the claim's FAIL and PASS legs hold — a definitive local FAIL is
returned identically for every backend (so the backend is never consulted),
and a local PASS proceeds to adjudication (the result is the parse of
whatever the backend answers) — but the null leg is false: a null local
scan raises `TypeError` at line 167 instead of proceeding to the
backend. -/
theorem C4_orchestration_asymmetry :
    (∀ backend : String → BackendResult,
      check_html plainPriceMarkup [] {} backend =
        .ok (LocalVerdict.toPy ⟨false,
          "Price/discount copy detected outside allowed value-tile",
          some [⟨"Price text", "fail",
            "Found price-like token '£4.99' in element <p> with text 'Only £4.99 today'"⟩]⟩)) ∧
    (∀ r : String,
      check_html tileMarkup [] {} (fun _ => .respond r) =
        .ok (parseGeminiText (pyStrip r))) ∧
    (∀ backend : String → BackendResult,
      check_html benignMarkup [] {} backend = .error .noneNotSubscriptable) :=
  ⟨fun _ => rfl, fun _ => rfl, fun _ => rfl⟩

/-- C5: on a document where the local scan triggers no FAIL, the price
loop completes with the list of in-tile price details (each in-tile match
recorded as a passing entry, none of them failing the scan), and the scan
returns the PASS verdict exactly when that list is non-empty, null
otherwise. -/
theorem C5_pass_iff_detail_recorded (doc : List Node)
    (hnofail : ∀ v, simple_local_check doc = some v → v.passed = true) :
    ∃ ds : List Detail,
      scanPrices (textNodesOf doc) [] = .ok ds ∧
      ds = ((textNodesOf doc).filter inTileMatch).map
        (fun t => passDetail (pyStrip t.text)) ∧
      simple_local_check doc =
        (if ds.isEmpty then none
         else some ⟨true, "OK (fast-checks)", some ds⟩) := by
  cases hk : kwHit (textNodesOf doc) with
  | some kw =>
    exfalso
    have hv : simple_local_check doc = some (kwFailVerdict kw) := by
      rw [simple_local_check, scanTextNodes, hk]
    have := hnofail _ hv
    simp [kwFailVerdict] at this
  | none =>
    cases hs : scanPrices (textNodesOf doc) [] with
    | error v =>
      exfalso
      have hv : simple_local_check doc = some v := by
        rw [simple_local_check, scanTextNodes, hk, hs]
      have h1 := hnofail _ hv
      have h2 := scanPrices_error_passed _ _ _ hs
      rw [h1] at h2
      exact Bool.true_eq_false ▸ h2 |>.elim
    | ok ds =>
      refine ⟨ds, rfl, ?_, ?_⟩
      · simpa using scanPrices_ok_eq _ _ _ hs
      · rw [simple_local_check, scanTextNodes, hk, hs]

/-- Witness for C5 at a concrete in-tile-price document. -/
theorem C5_pass_iff_detail_recorded_witness :
    ∃ ds : List Detail,
      scanPrices (textNodesOf tileDoc) [] = .ok ds ∧
      ds = ((textNodesOf tileDoc).filter inTileMatch).map
        (fun t => passDetail (pyStrip t.text)) ∧
      simple_local_check tileDoc =
        (if ds.isEmpty then none
         else some ⟨true, "OK (fast-checks)", some ds⟩) :=
  C5_pass_iff_detail_recorded tileDoc (by
    intro v hv
    have hc : (some tilePassVerdict : Option LocalVerdict) = some v := hv
    injection hc with h2
    rw [← h2]
    rfl)

/-- C6: markup whose concatenated, lowercased out-of-tile text (script and
style content excluded) contains a banned phrase makes the local scan —
and hence `checkCompliance` — return `passed=false` with a matching phrase
quoted in the reason.  (Which of several matching phrases is reported
depends on Python's unspecified set iteration order, so the reported
phrase is quantified existentially.) -/
theorem C6_banned_phrase_fails (m : Markup) (objects : List DetObj)
    (assets : Assets) (backend : String → BackendResult)
    (h : ∃ kw ∈ COPY_HARD_FAIL_KEYWORDS,
      strHas (outsideTextOf (textNodesOf m.dom)) kw = true) :
    ∃ kw ∈ COPY_HARD_FAIL_KEYWORDS,
      strHas (outsideTextOf (textNodesOf m.dom)) kw = true ∧
      simple_local_check m.dom = some (kwFailVerdict kw) ∧
      (kwFailVerdict kw).passed = false ∧
      (kwFailVerdict kw).reason =
        "Disallowed copy keyword detected outside value-tile: '" ++ kw ++ "'" ∧
      check_html m objects assets backend = .ok (kwFailVerdict kw).toPy := by
  have hsome : (kwHit (textNodesOf m.dom)).isSome := by
    rw [kwHit, List.find?_isSome]
    obtain ⟨kw, hmem, hkw⟩ := h
    exact ⟨kw, hmem, hkw⟩
  obtain ⟨kw, hk⟩ := Option.isSome_iff_exists.mp hsome
  have hmem : kw ∈ COPY_HARD_FAIL_KEYWORDS := List.mem_of_find?_eq_some hk
  have hmatch : strHas (outsideTextOf (textNodesOf m.dom)) kw = true :=
    List.find?_some hk
  have hscan : simple_local_check m.dom = some (kwFailVerdict kw) := by
    rw [simple_local_check, scanTextNodes, kwHit] at *
    rw [hk]
  refine ⟨kw, hmem, hmatch, hscan, rfl, rfl, ?_⟩
  rw [check_html, hscan]
  rfl

/-- C7: the response parser tries, in order and first success wins, a
whole-string JSON parse, then a ```json fenced block, then left-to-right
brace-balanced substrings; when all fail it returns, without raising, a
FAIL dict whose reason says the response was unparsable and which carries
the raw text; and on the fenced example it extracts exactly
`\x7bpassed: true, reason: "OK", details: []\x7d`. -/
theorem C7_response_parsing :
    (∀ (text : String) (v : PyValue),
      jsonLoads text = some v → parseGeminiText text = v) ∧
    (∀ (text : String) (v : PyValue),
      jsonLoads text = none → (fencedGroup text).bind jsonLoads = some v →
      parseGeminiText text = v) ∧
    (∀ (text : String) (v : PyValue),
      jsonLoads text = none → (fencedGroup text).bind jsonLoads = none →
      braceScan text = some v → parseGeminiText text = v) ∧
    (∀ text : String,
      jsonLoads text = none → (fencedGroup text).bind jsonLoads = none →
      braceScan text = none →
      parseGeminiText text = unparsableVerdict text ∧
      pyGet (unparsableVerdict text) "passed" = some (.bool false) ∧
      pyGet (unparsableVerdict text) "reason" =
        some (.str "Gemini returned unparsable response") ∧
      strHas "Gemini returned unparsable response" "unparsable response" = true ∧
      pyGet (unparsableVerdict text) "raw" = some (.str text)) ∧
    parseGeminiText
        "Sure! ```json\n\x7b\"passed\": true, \"reason\": \"OK\", \"details\": []\x7d\n```" =
      .dict [("passed", .bool true), ("reason", .str "OK"),
             ("details", .list [])] := by
  refine ⟨?_, ?_, ?_, ?_, by rfl⟩
  · intro text v h1
    simp only [parseGeminiText, h1]
  · intro text v h1 h2
    simp only [parseGeminiText, h1, h2]
  · intro text v h1 h2 h3
    simp only [parseGeminiText, h1, h2, h3]
  · intro text h1 h2 h3
    exact ⟨by simp only [parseGeminiText, h1, h2, h3], rfl, rfl, rfl, rfl⟩

/-- Witness for C7: each stage of the parser applied at a concrete
response text. -/
theorem C7_response_parsing_witness :
    parseGeminiText "\x7b\"a\": 1\x7d" = .dict [("a", .int 1)] ∧
    parseGeminiText "ok ```json\n\x7b\"b\": 2\x7d\n``` end" =
      .dict [("b", .int 2)] ∧
    parseGeminiText "pre \x7b\"c\": 3\x7d post" = .dict [("c", .int 3)] ∧
    (parseGeminiText "hello" = unparsableVerdict "hello" ∧
      pyGet (unparsableVerdict "hello") "passed" = some (.bool false) ∧
      pyGet (unparsableVerdict "hello") "reason" =
        some (.str "Gemini returned unparsable response") ∧
      strHas "Gemini returned unparsable response" "unparsable response" = true ∧
      pyGet (unparsableVerdict "hello") "raw" = some (.str "hello")) :=
  ⟨C7_response_parsing.1 _ _ rfl,
   C7_response_parsing.2.1 _ _ rfl rfl,
   C7_response_parsing.2.2.1 _ _ rfl rfl rfl,
   C7_response_parsing.2.2.2.1 "hello" rfl rfl rfl⟩

/-- Does a dict-shaped value carry a boolean `passed` and a string
`reason`? -/
def isWellFormedVerdict (r : PyValue) : Bool :=
  (match pyGet r "passed" with
   | some (.bool _) => true
   | _ => false) &&
  (match pyGet r "reason" with
   | some (.str _) => true
   | _ => false)

theorem localVerdict_toPy_wellFormed (v : LocalVerdict) :
    isWellFormedVerdict v.toPy = true := by
  cases v with
  | mk passed reason details => cases passed <;> cases details <;> rfl

/-- C8 counterexample: the claim says every verdict returned by
`checkCompliance` carries a boolean `passed` and a string `reason`.  But
parsed adjudication output is returned as-is: a backend response of
`\x7b\x7d` makes `check_html` return the empty dict, which has neither
key. -/
theorem C8_partial_verdict_returned :
    check_html tileMarkup [] {} (fun _ => .respond "\x7b\x7d") =
      .ok (.dict []) ∧
    pyGet (.dict []) "passed" = none ∧
    pyGet (.dict []) "reason" = none ∧
    isWellFormedVerdict (.dict []) = false := ⟨rfl, rfl, rfl, rfl⟩

/-- C8 amended: every verdict `check_html` returns is either fully formed
(boolean `passed`, string `reason`) — which covers the local-scanner
verdicts, the backend-failure fallback and the unparsable-response
fallback — or is exactly the JSON value parsed out of the backend's
response text, returned as-is (and possibly lacking those keys). -/
theorem C8_verdict_shape (m : Markup) (objects : List DetObj)
    (assets : Assets) (backend : String → BackendResult) (r : PyValue)
    (h : check_html m objects assets backend = .ok r) :
    isWellFormedVerdict r = true ∨
    ∃ t : String,
      backend (composePrompt m.source (detectedObjectsText objects)
        (pyDumps assets.user_inputs) (pyDumps assets.format)) = .respond t ∧
      r = parseGeminiText (pyStrip t) := by
  rw [check_html] at h
  split at h
  · exact absurd h (by simp)
  next lv hscan =>
    split at h
    · left
      injection h with h2
      rw [← h2]
      exact localVerdict_toPy_wellFormed lv
    · split at h
      next t hb =>
        right
        injection h with h2
        exact ⟨t, hb, h2.symm⟩
      next msg hb =>
        left
        simp only [hscan] at h
        injection h with h2
        rw [← h2]
        exact localVerdict_toPy_wellFormed lv

/-- Witness for C8's amended theorem: a well-formed local FAIL verdict and
an as-is parsed backend verdict, at concrete inputs. -/
theorem C8_verdict_shape_witness :
    (isWellFormedVerdict (.dict []) = true ∨
      ∃ t : String,
        (fun _ : String => BackendResult.respond "\x7b\x7d")
            (composePrompt tileMarkup.source (detectedObjectsText [])
              (pyDumps (Assets.mk (.dict []) (.dict [])).user_inputs)
              (pyDumps (Assets.mk (.dict []) (.dict [])).format)) =
          .respond t ∧
        (PyValue.dict []) = parseGeminiText (pyStrip t)) :=
  C8_verdict_shape tileMarkup [] (Assets.mk (.dict []) (.dict []))
    (fun _ => .respond "\x7b\x7d") (.dict []) rfl

/-- Witness for C6 at a concrete banned-phrase document. -/
theorem C6_banned_phrase_fails_witness :
    ∃ kw ∈ COPY_HARD_FAIL_KEYWORDS,
      strHas (outsideTextOf (textNodesOf keywordMarkup.dom)) kw = true ∧
      simple_local_check keywordMarkup.dom = some (kwFailVerdict kw) ∧
      (kwFailVerdict kw).passed = false ∧
      (kwFailVerdict kw).reason =
        "Disallowed copy keyword detected outside value-tile: '" ++ kw ++ "'" ∧
      check_html keywordMarkup [] {} (fun _ => .respond "unreached") =
        .ok (kwFailVerdict kw).toPy :=
  C6_banned_phrase_fails keywordMarkup [] {} (fun _ => .respond "unreached")
    ⟨"guarantee", by decide, by decide⟩

/-! ### Shared lemmas about the palette store -/

/-- The usage-count bump of the conflicting row. -/
def bumpRow (a : ColorKey) (r : PaletteRow) : PaletteRow :=
  if r.key = a then { r with usage_count := r.usage_count + 1 } else r

theorem bumpRow_key (a : ColorKey) (r : PaletteRow) : (bumpRow a r).key = r.key := by
  rw [bumpRow]
  split <;> rfl

theorem filter_map_bumpRow (db : PaletteDB) (k a : ColorKey) :
    (db.map (bumpRow a)).filter (fun r => decide (r.key = k)) =
      (db.filter (fun r => decide (r.key = k))).map (bumpRow a) := by
  induction db with
  | nil => rfl
  | cons r rs ih =>
    by_cases hk : r.key = k
    · simp [List.filter_cons, List.map_cons, bumpRow_key, hk, ih]
    · simp [List.filter_cons, List.map_cons, bumpRow_key, hk, ih]

theorem save_palette_eq_bump (db : PaletteDB) (a : ColorKey)
    (h : db.any (fun r => decide (r.key = a)) = true) :
    save_palette db a = db.map (bumpRow a) := by
  rw [save_palette, if_pos h]
  rfl

theorem save_palette_eq_append (db : PaletteDB) (a : ColorKey)
    (h : db.any (fun r => decide (r.key = a)) = false) :
    save_palette db a = db ++ [⟨a, 1⟩] := by
  rw [save_palette, if_neg (by simp [h])]

theorem savePalette_filter_foldl (ks : List ColorKey) :
    ∀ (db : PaletteDB) (k : ColorKey) (c : Nat),
      db.filter (fun r => decide (r.key = k)) =
        (if c = 0 then [] else [⟨k, c⟩]) →
      (ks.foldl save_palette db).filter (fun r => decide (r.key = k)) =
        (if c + ks.count k = 0 then [] else [⟨k, c + ks.count k⟩]) := by
  induction ks with
  | nil => intro db k c hdb; simpa using hdb
  | cons a ks ih =>
    intro db k c hdb
    rw [List.foldl_cons]
    by_cases hany : db.any (fun r => decide (r.key = a)) = true
    · by_cases hak : a = k
      · subst hak
        have hc : c ≠ 0 := by
          intro hc0
          rw [hc0, if_pos rfl] at hdb
          obtain ⟨r, hr, hrk⟩ := List.any_eq_true.mp hany
          have hmem : r ∈ db.filter (fun r => decide (r.key = a)) :=
            List.mem_filter.mpr ⟨hr, hrk⟩
          rw [hdb] at hmem
          cases hmem
        have hstep : (save_palette db a).filter (fun r => decide (r.key = a)) =
            (if c + 1 = 0 then [] else [⟨a, c + 1⟩]) := by
          rw [save_palette_eq_bump db a hany, filter_map_bumpRow, hdb,
            if_neg hc, if_neg (Nat.succ_ne_zero c)]
          simp [bumpRow]
        have harith : c + 1 + ks.count a = c + (a :: ks).count a := by
          rw [List.count_cons_self]
          omega
        rw [ih (save_palette db a) a (c + 1) hstep, harith]
      · have hstep : (save_palette db a).filter (fun r => decide (r.key = k)) =
            (if c = 0 then [] else [⟨k, c⟩]) := by
          rw [save_palette_eq_bump db a hany, filter_map_bumpRow, hdb]
          by_cases hc : c = 0
          · simp [hc]
          · rw [if_neg hc, List.map_cons, List.map_nil,
              show bumpRow a ⟨k, c⟩ = ⟨k, c⟩ from
                if_neg (fun hkk => hak (hkk.symm))]
        rw [ih (save_palette db a) k c hstep,
          List.count_cons_of_ne (fun hkk => hak hkk.symm)]
    · have hany' : db.any (fun r => decide (r.key = a)) = false :=
        Bool.eq_false_iff.mpr hany
      by_cases hak : a = k
      · subst hak
        have hc : c = 0 := by
          by_contra hc0
          rw [if_neg hc0] at hdb
          have hmem : (⟨a, c⟩ : PaletteRow) ∈
              db.filter (fun r => decide (r.key = a)) := by
            rw [hdb]
            exact List.mem_singleton.mpr rfl
          exact hany (List.any_eq_true.mpr
            ⟨⟨a, c⟩, (List.mem_filter.mp hmem).1, by simp⟩)
        subst hc
        have hstep : (save_palette db a).filter (fun r => decide (r.key = a)) =
            (if 1 = 0 then [] else [⟨a, 1⟩]) := by
          rw [save_palette_eq_append db a hany', List.filter_append, hdb]
          simp
        have harith : 1 + ks.count a = 0 + (a :: ks).count a := by
          rw [List.count_cons_self]
          omega
        rw [ih (save_palette db a) a 1 hstep, harith]
      · have hstep : (save_palette db a).filter (fun r => decide (r.key = k)) =
            (if c = 0 then [] else [⟨k, c⟩]) := by
          rw [save_palette_eq_append db a hany', List.filter_append, hdb]
          have : ([⟨a, 1⟩] : PaletteDB).filter (fun r => decide (r.key = k)) = [] := by
            simp [List.filter_cons, hak]
          rw [this, List.append_nil]
        rw [ih (save_palette db a) k c hstep,
          List.count_cons_of_ne (fun hkk => hak hkk.symm)]

/-- C9: against the freshly initialised store, a save of an unseen 4-color
tuple appends a row with `usage_count` 1, a save of a present tuple bumps
that row in place, after any sequence of saves the rows keyed by a tuple
are exactly one row counting its saves (or none), and a save never removes
a row (its key survives with a count at least as large). -/
theorem C9_palette_upsert :
    (∀ (ks : List ColorKey) (k : ColorKey),
      (savePaletteSeq ks).filter (fun r => decide (r.key = k)) =
        (if ks.count k = 0 then [] else [⟨k, ks.count k⟩])) ∧
    (∀ (db : PaletteDB) (k : ColorKey),
      db.any (fun r => decide (r.key = k)) = false →
      save_palette db k = db ++ [⟨k, 1⟩]) ∧
    (∀ (db : PaletteDB) (k : ColorKey),
      db.any (fun r => decide (r.key = k)) = true →
      save_palette db k = db.map (bumpRow k)) ∧
    (∀ (db : PaletteDB) (k : ColorKey) (r : PaletteRow), r ∈ db →
      ∃ r' ∈ save_palette db k,
        r'.key = r.key ∧ r.usage_count ≤ r'.usage_count) := by
  refine ⟨?_, ?_, ?_, ?_⟩
  · intro ks k
    have := savePalette_filter_foldl ks [] k 0 (by simp)
    simpa using this
  · intro db k h
    exact save_palette_eq_append db k h
  · intro db k h
    exact save_palette_eq_bump db k h
  · intro db k r hr
    by_cases hany : db.any (fun r => decide (r.key = k)) = true
    · refine ⟨bumpRow k r, ?_, bumpRow_key k r, ?_⟩
      · rw [save_palette_eq_bump db k hany]
        exact List.mem_map_of_mem _ hr
      · rw [bumpRow]
        split
        · exact Nat.le_succ _
        · exact Nat.le_refl _
    · refine ⟨r, ?_, rfl, Nat.le_refl _⟩
      rw [save_palette_eq_append db k (Bool.eq_false_iff.mpr hany)]
      exact List.mem_append_left _ hr

/-- Witness for C9: concrete first save, repeat save, and row survival. -/
theorem C9_palette_upsert_witness :
    save_palette [] ("a", "b", "c", "d") = [⟨("a", "b", "c", "d"), 1⟩] ∧
    save_palette [⟨("a", "b", "c", "d"), 1⟩] ("a", "b", "c", "d") =
      [⟨("a", "b", "c", "d"), 2⟩] ∧
    ∃ r' ∈ save_palette [⟨("a", "b", "c", "d"), 3⟩] ("a", "b", "c", "d"),
      r'.key = (⟨("a", "b", "c", "d"), 3⟩ : PaletteRow).key ∧
      (⟨("a", "b", "c", "d"), 3⟩ : PaletteRow).usage_count ≤ r'.usage_count :=
  ⟨by simpa using C9_palette_upsert.2.1 [] ("a", "b", "c", "d") rfl,
   by rw [C9_palette_upsert.2.2.1 [⟨("a", "b", "c", "d"), 1⟩]
       ("a", "b", "c", "d") rfl]; rfl,
   C9_palette_upsert.2.2.2 [⟨("a", "b", "c", "d"), 3⟩] ("a", "b", "c", "d")
     ⟨("a", "b", "c", "d"), 3⟩ (List.mem_singleton.mpr rfl)⟩

/-! ### Shared lemmas for the script/style skip -/

theorem keptOutside_of_keepNS_false (t : TNode) (h : keepNS t = false) :
    keptOutside t = false := by
  rw [keptOutside, h]
  simp

theorem filter_keptOutside_keepNS (ts : List TNode) :
    (ts.filter keepNS).filter keptOutside = ts.filter keptOutside := by
  induction ts with
  | nil => rfl
  | cons t rest ih =>
    cases hk : keepNS t with
    | false =>
      rw [List.filter_cons, List.filter_cons, hk,
        keptOutside_of_keepNS_false t hk]
      simpa using ih
    | true =>
      rw [List.filter_cons, hk, if_pos rfl, List.filter_cons,
        List.filter_cons, ih]

theorem outsideTextOf_filter_keepNS (ts : List TNode) :
    outsideTextOf (ts.filter keepNS) = outsideTextOf ts := by
  rw [outsideTextOf, outsideTextOf, filter_keptOutside_keepNS]

theorem skippedNode_of_keepNS_false (t : TNode) (h : keepNS t = false) :
    skippedNode t = true := by
  rw [keepNS] at h
  simp only [Bool.not_eq_false', Bool.or_eq_true] at h
  rcases h with h1 | h1 <;> simp [skippedNode, h1]

theorem scanPrices_cons_skip (t : TNode) (rest : List TNode)
    (acc : List Detail) (hs : skippedNode t = true) :
    scanPrices (t :: rest) acc = scanPrices rest acc := by
  rw [scanPrices, if_pos hs]

theorem scanPrices_cons_noMatch (t : TNode) (rest : List TNode)
    (acc : List Detail) (hs : skippedNode t = false)
    (hm : priceSearch (pyStrip t.text) = none) :
    scanPrices (t :: rest) acc = scanPrices rest acc := by
  rw [scanPrices, if_neg (by simp [hs])]
  simp only [hm]

theorem scanPrices_cons_tile (t : TNode) (rest : List TNode)
    (acc : List Detail) (m : String) (hs : skippedNode t = false)
    (hm : priceSearch (pyStrip t.text) = some m)
    (ht : isWithinAllowedTile t = true) :
    scanPrices (t :: rest) acc =
      scanPrices rest (acc ++ [passDetail (pyStrip t.text)]) := by
  rw [scanPrices, if_neg (by simp [hs])]
  simp only [hm, ht, if_true]

theorem scanPrices_cons_fail (t : TNode) (rest : List TNode)
    (acc : List Detail) (m : String) (hs : skippedNode t = false)
    (hm : priceSearch (pyStrip t.text) = some m)
    (ht : isWithinAllowedTile t = false) :
    scanPrices (t :: rest) acc =
      .error (priceFailVerdict t (pyStrip t.text) m) := by
  rw [scanPrices, if_neg (by simp [hs])]
  simp only [hm, ht, Bool.false_eq_true, if_false]

theorem scanPrices_filter_keepNS (ts : List TNode) :
    ∀ acc, scanPrices (ts.filter keepNS) acc = scanPrices ts acc := by
  induction ts with
  | nil => intro acc; rfl
  | cons t rest ih =>
    intro acc
    cases hk : keepNS t with
    | false =>
      rw [List.filter_cons, hk, if_neg (by simp),
        scanPrices_cons_skip t rest acc (skippedNode_of_keepNS_false t hk)]
      exact ih acc
    | true =>
      rw [List.filter_cons, hk, if_pos rfl]
      by_cases hs : skippedNode t = true
      · rw [scanPrices_cons_skip t _ acc hs, scanPrices_cons_skip t rest acc hs]
        exact ih acc
      · have hs' : skippedNode t = false := Bool.eq_false_iff.mpr hs
        cases hm : priceSearch (pyStrip t.text) with
        | none =>
          rw [scanPrices_cons_noMatch t _ acc hs' hm,
            scanPrices_cons_noMatch t rest acc hs' hm]
          exact ih acc
        | some m =>
          cases ht : isWithinAllowedTile t with
          | true =>
            rw [scanPrices_cons_tile t _ acc m hs' hm ht,
              scanPrices_cons_tile t rest acc m hs' hm ht]
            exact ih _
          | false =>
            rw [scanPrices_cons_fail t _ acc m hs' hm ht,
              scanPrices_cons_fail t rest acc m hs' hm ht]

/-- C10: a text node whose parent element is `script` or `style` is
skipped by the keyword step and by the price step alike — dropping all
such nodes changes neither the out-of-tile text, nor the price loop, nor
the scanner's verdict — so a price-like token living only inside script
or style content never causes a FAIL and is never recorded as a detail
entry. -/
theorem C10_script_style_skipped :
    (∀ (ts : List TNode) (acc : List Detail),
      scanPrices (ts.filter keepNS) acc = scanPrices ts acc) ∧
    (∀ ts : List TNode, outsideTextOf (ts.filter keepNS) = outsideTextOf ts) ∧
    (∀ ts : List TNode, scanTextNodes (ts.filter keepNS) = scanTextNodes ts) ∧
    (∀ doc : List Node,
      simple_local_check doc =
        scanTextNodes ((textNodesOf doc).filter keepNS)) ∧
    simple_local_check [Node.elem "script" [] none [.text "£9.99"]] = none ∧
    simple_local_check
      [Node.elem "style" [] none [.text "20% off was £5 guarantee"]] = none := by
  have hscan : ∀ ts : List TNode,
      scanTextNodes (ts.filter keepNS) = scanTextNodes ts := by
    intro ts
    rw [scanTextNodes, scanTextNodes, kwHit, kwHit, outsideTextOf_filter_keepNS,
      scanPrices_filter_keepNS]
  refine ⟨scanPrices_filter_keepNS, outsideTextOf_filter_keepNS, hscan,
    ?_, rfl, rfl⟩
  intro doc
  rw [simple_local_check, hscan]

end Tesco

